import Mathlib

/-!
Verification development for the entity-schema → C++ header generator of
`techcaotri/xtext-mydsl-playground`.

The repository's visible sources are the two generated headers
`generated/include/Person.h` and `generated/include/Employee.h`; the generator
core itself (schema model, hierarchy resolver, member synthesizer, emission
engine, generation driver) is described by the design document but is not part
of the checked-in sources.  Accordingly this file contains two layers:

* a byte-faithful embedding of the two generated header artifacts
  (`personHeaderLines`, `employeeHeaderLines`), used to settle claims about
  the observed output; and
* executable models of the generator operations (`resolve`, `synthesize`,
  `render`, `generate`), each marked `Modelled from the spec:` in its doc
  comment, used to settle claims about the missing generator code.
-/

namespace MyDslGen

/-! ### Character/string primitives

Kernel-reducible replacements for `String.toUpper`, `String.startsWith` and
friends (whose core implementations do not reduce under `decide`). -/

/-- ASCII uppercase of one character. -/
def toUpperChar (c : Char) : Char :=
  if 97 ≤ c.toNat ∧ c.toNat ≤ 122 then Char.ofNat (c.toNat - 32) else c

/-- ASCII uppercase of a string (used for include-guard names). -/
def upperName (s : String) : String := ⟨s.data.map toUpperChar⟩

/-- Strict alphabetical (lexicographic, by character code) order on char lists. -/
def charListLt : List Char → List Char → Bool
  | [], [] => false
  | [], _ :: _ => true
  | _ :: _, [] => false
  | a :: as, b :: bs =>
    if a.toNat < b.toNat then true
    else if b.toNat < a.toNat then false
    else charListLt as bs

/-- Alphabetical `≤` on strings. -/
def alphaLe (a b : String) : Bool := !(charListLt b.data a.data)

/-- Is a list of strings alphabetically sorted? -/
def sortedAlpha : List String → Bool
  | [] => true
  | [_] => true
  | a :: b :: t => alphaLe a b && sortedAlpha (b :: t)

/-- A text line is a preprocessor directive iff its first character is `#`. -/
def isDirective (l : String) : Bool :=
  match l.data with
  | '#' :: _ => true
  | _ => false

/-- The preprocessor directives of a unit, in textual order. -/
def directivesOf (lines : List String) : List String := lines.filter isDirective

/-- Does the char list `p` occur as a leading segment of `l`? -/
def leadSeg : List Char → List Char → Bool
  | [], _ => true
  | _ :: _, [] => false
  | a :: p, b :: l => a == b && leadSeg p l

/-- Drop leading space characters. -/
def dropIndent : List Char → List Char
  | ' ' :: t => dropIndent t
  | l => l

/-! ### Embedded artifact: `src/org.xtext.example.mydsl/generated/generated/include/Person.h`

Byte-faithful transcription, one string per line (trailing blanks preserved;
literal braces written with their escape codes as required for string
literals here). -/

def personHeaderLines : List String :=
  [ "// Auto-generated C++ header file"
  , ""
  , "#ifndef PERSON_H"
  , "#define PERSON_H"
  , ""
  , "// Standard library includes"
  , "#include <iostream>"
  , "#include <memory>"
  , "#include <string>"
  , "#include <vector>"
  , "#include <map>"
  , ""
  , "// Project includes"
  , ""
  , "// Custom includes based on features"
  , ""
  , "namespace com.example \x7b"
  , ""
  , "/**"
  , " * @class Person"
  , " * @brief A person entity"
  , " */"
  , ""
  , "class Person \x7b"
  , "private:"
  , "    std::string name;"
  , "    int age;"
  , "    "
  , "    "
  , "    "
  , "public:"
  , "    // Constructors and Destructor"
  , "    Person();"
  , "    Person();"
  , "    explicit Person(std::string& name, int age"
  , "    );"
  , "    virtual ~Person();"
  , "    "
  , "    "
  , "    "
  , "    // Public methods"
  , "    std::string getName() const;"
  , "    void setName(std::string& value"
  , "    );"
  , "    int getAge() const noexcept;"
  , "    virtual void display() const;"
  , "    "
  , "    // Getters and Setters"
  , "    std::string getEmail() const \x7b return email; \x7d"
  , "    void setEmail(const std::string& value) \x7b email = value; \x7d"
  , "    "
  , "    "
  , "    "
  , "    "
  , "    "
  , "\x7d;"
  , ""
  , "\x7d // namespace com.example"
  , ""
  , "// Inline implementations"
  , ""
  , "#endif // PERSON_H"
  ]

/-! ### Embedded artifact: `src/org.xtext.example.mydsl/generated/generated/include/Employee.h` -/

def employeeHeaderLines : List String :=
  [ "// Auto-generated C++ header file"
  , ""
  , "#ifndef EMPLOYEE_H"
  , "#define EMPLOYEE_H"
  , ""
  , "// Standard library includes"
  , "#include <iostream>"
  , "#include <memory>"
  , "#include <string>"
  , "#include <vector>"
  , "#include <map>"
  , ""
  , "// Project includes"
  , "#include \"Person.h\""
  , ""
  , "// Custom includes based on features"
  , ""
  , "namespace com.example \x7b"
  , ""
  , "/**"
  , " * @class Employee"
  , " * @brief An employee entity"
  , " */"
  , ""
  , "class Employee : public Person \x7b"
  , "private:"
  , "    std::string employeeId;"
  , "    double salary = 0.0;"
  , "    "
  , "    "
  , "    "
  , "public:"
  , "    // Constructors and Destructor"
  , "    Employee();"
  , "    ~Employee();"
  , "    "
  , "    "
  , "    "
  , "    // Public methods"
  , "    std::string getEmployeeId() const;"
  , "    void setSalary(double value"
  , "    );"
  , "    void display() const;"
  , "    "
  , "    // Getters and Setters"
  , "    "
  , "    "
  , "    "
  , "    "
  , "    "
  , "\x7d;"
  , ""
  , "\x7d // namespace com.example"
  , ""
  , "// Inline implementations"
  , ""
  , "#endif // EMPLOYEE_H"
  , ""
  ]

/-! ### Extraction functions over artifact lines -/

/-- Number of default-constructor declarations (`Name();`) for entity `name`
in a header's lines, ignoring indentation. -/
def defaultCtorDeclCount (lines : List String) (name : String) : Nat :=
  lines.countP (fun l => dropIndent l.data == name.data ++ "();".data)

/-- The lines declaring an `explicit` constructor, ignoring indentation. -/
def explicitCtorLines (lines : List String) : List String :=
  lines.filter (fun l => leadSeg "explicit ".data (dropIndent l.data))

/-- Number of commas in a line (a `k`-comma parameter list has `k+1` parameters). -/
def commaCount (l : String) : Nat := l.data.countP (fun c => c == ',')

/-- Targets of the angle-bracket (standard library) `#include` directives,
in textual order, with the `#include <` and `>` stripped. -/
def angleIncludeTargets (lines : List String) : List String :=
  lines.filterMap (fun l =>
    if leadSeg "#include <".data l.data
    then some ⟨(l.data.drop 10).dropLast⟩
    else none)

/-- Lines declaring a constructor of `name` with a nonempty parameter list:
they start (after indentation, and an optional `explicit `) with `Name(` and
do not continue with `)`. -/
def paramCtorDeclCount (lines : List String) (name : String) : Nat :=
  lines.countP (fun l =>
    let body := dropIndent l.data
    let body := if leadSeg "explicit ".data body then body.drop 9 else body
    leadSeg (name.data ++ ['(']) body && !(leadSeg (name.data ++ "()".data) body))


/-! ### Schema data model

Modelled from the spec (section 3, DATA MODEL): the generator's input
representation is not part of the checked-in sources. -/

/-- Modelled from the spec: the semantic type of an attribute (primitive,
string, reference-to-entity, collection-of); the in-memory schema types are
missing from the sources. -/
inductive SemType
  | prim (name : String)
  | str
  | ref (entity : String)
  | coll (elem : SemType)
deriving DecidableEq

/-- Modelled from the spec: an Attribute (name, semantic type, optional
default value, derives-accessor/mutator/constexpr flags); missing from the
sources. -/
structure Attribute where
  name : String
  ty : SemType
  defaultVal : Option String
  derivesAccessor : Bool
  derivesMutator : Bool
  isConstExpr : Bool
deriving DecidableEq

/-- Modelled from the spec: polymorphism kind of a Method. -/
inductive PolyKind
  | plain
  | virtual
  | override
  | pureVirtual
deriving DecidableEq

/-- Modelled from the spec: a method parameter (name, type, optional default). -/
structure MParam where
  name : String
  ty : SemType
  defaultVal : Option String
deriving DecidableEq

/-- Modelled from the spec: a Method declaration (name, return type,
parameters, constness, polymorphism kind, body-presence flag); missing from
the sources. -/
structure Method where
  name : String
  ret : Option SemType
  params : List MParam
  isConst : Bool
  poly : PolyKind
  hasBody : Bool
deriving DecidableEq

/-- Modelled from the spec: an Entity (unique name, optional single parent,
ordered attributes, ordered explicit methods, documentation, and the
abstract-declared flag referred to by the resolver's pure-virtual check);
missing from the sources. -/
structure Entity where
  name : String
  parent : Option String
  attrs : List Attribute
  methods : List Method
  doc : String
  isAbstract : Bool
deriving DecidableEq

/-- Modelled from the spec: a Schema, the immutable snapshot of all entities
in producer-defined (declaration) order; missing from the sources. -/
structure Schema where
  entities : List Entity
deriving DecidableEq

/-- Modelled from the spec: the structural/schema error taxonomy (section 7). -/
inductive ResolutionError
  | unknownParent (entity : String)
  | cyclicInheritance (entity : String)
  | attributeTypeConflict (attr : String)
  | invalidOverride (entity : String) (method : String)
  | unimplementedAbstractMethod (entity : String) (method : String)
  | duplicateMethodSignature (entity : String) (method : String)
deriving DecidableEq

/-! ### Hierarchy resolver

Modelled from the spec (section 4.2): the resolver implementation is missing
from the sources. -/

/-- Modelled from the spec: `entity(name)` lookup of the schema model. -/
def findEntity (s : Schema) (n : String) : Option Entity :=
  s.entities.find? (fun e => e.name == n)

/-- Modelled from the spec: one step along the parent-pointer forest — the
declared parent name of the named entity, if any. -/
def parentStep (s : Schema) (n : String) : Option String :=
  (findEntity s n).bind Entity.parent

/-- `k` steps along the parent-pointer forest (`none` when a step has no
parent or names an absent entity). -/
def parentIter (s : Schema) : Nat → String → Option String
  | 0, n => some n
  | k + 1, n => (parentStep s n).bind (parentIter s k)

/-- Modelled from the spec: the visited-set walk from one entity toward its
root used for cycle detection; returns `false` when an entity is revisited
before the walk reaches a root (a name with no parent edge out of it), and
`false` on fuel exhaustion (which a sufficient fuel makes unreachable). -/
def walkToRoot (s : Schema) : Nat → List String → String → Bool
  | 0, _, _ => false
  | fuel + 1, visited, cur =>
    if cur ∈ visited then false
    else
      match parentStep s cur with
      | none => true
      | some p => walkToRoot s fuel (cur :: visited) p

/-- Modelled from the spec: the ancestor name list of an entity, nearest
ancestor first, obtained by walking parent pointers; an absent parent name
fails with `UnknownParentError` (section 4.1), fuel exhaustion (only possible
on a cyclic chain) with `CyclicInheritanceError`. -/
def ancestorWalk (s : Schema) : Nat → String → Except ResolutionError (List String)
  | 0, n => .error (.cyclicInheritance n)
  | fuel + 1, n =>
    match findEntity s n with
    | none => .error (.unknownParent n)
    | some e =>
      match e.parent with
      | none => .ok []
      | some p =>
        match ancestorWalk s fuel p with
        | .ok rest => .ok (p :: rest)
        | .error err => .error err

/-- Modelled from the spec: the linearized ancestor chain, root-first, of the
named entity — computed by walking parent pointers and reversing. -/
def ancestorChain (s : Schema) (n : String) : Except ResolutionError (List String) :=
  match ancestorWalk s (s.entities.length + 1) n with
  | .ok l => .ok l.reverse
  | .error err => .error err

/-- Modelled from the spec: apply one attribute to the name→Attribute mapping
of the top-down merge — a fresh name is appended, a re-declared name of equal
type overwrites the existing entry in place, a re-declared name of different
type fails with `AttributeTypeConflictError`. -/
def applyAttr (m : List (String × Attribute)) (a : Attribute) :
    Except ResolutionError (List (String × Attribute)) :=
  match m.lookup a.name with
  | none => .ok (m ++ [(a.name, a)])
  | some old =>
    if old.ty = a.ty
    then .ok (m.map (fun p => if p.1 == a.name then (a.name, a) else p))
    else .error (.attributeTypeConflict a.name)

/-- Apply a list of attributes, left to right. -/
def applyAttrList (m : List (String × Attribute)) :
    List Attribute → Except ResolutionError (List (String × Attribute))
  | [] => .ok m
  | a :: t =>
    match applyAttr m a with
    | .ok m' => applyAttrList m' t
    | .error err => .error err

/-- Apply each named ancestor's own attributes, in the given (root-to-leaf)
order. -/
def applyChainAttrs (s : Schema) (m : List (String × Attribute)) :
    List String → Except ResolutionError (List (String × Attribute))
  | [] => .ok m
  | n :: rest =>
    match findEntity s n with
    | none => .error (.unknownParent n)
    | some a =>
      match applyAttrList m a.attrs with
      | .ok m' => applyChainAttrs s m' rest
      | .error err => .error err

/-- Modelled from the spec: the merged attribute mapping of an entity — start
from the empty mapping, apply each ancestor's own attributes in root-to-leaf
order, then the entity's own attributes. -/
def mergeAttrs (s : Schema) (chain : List String) (e : Entity) :
    Except ResolutionError (List (String × Attribute)) :=
  match applyChainAttrs s [] chain with
  | .ok m => applyAttrList m e.attrs
  | .error err => .error err

/-- Signature identity of a method: name plus parameter types. -/
def Method.sig (m : Method) : String × List SemType := (m.name, m.params.map MParam.ty)

/-- Modelled from the spec: apply one method of entity `ename` to the
signature→Method mapping of the merge — an `override` method must match an
existing virtual/override/pure-virtual entry of the same signature (else
`InvalidOverrideError`); a matching signature is overwritten in place. -/
def applyMethod (ename : String) (m : List ((String × List SemType) × Method))
    (mth : Method) :
    Except ResolutionError (List ((String × List SemType) × Method)) :=
  match m.lookup mth.sig with
  | none =>
    if mth.poly = .override then .error (.invalidOverride ename mth.name)
    else .ok (m ++ [(mth.sig, mth)])
  | some old =>
    if mth.poly = .override ∧
        ¬(old.poly = .virtual ∨ old.poly = .override ∨ old.poly = .pureVirtual)
    then .error (.invalidOverride ename mth.name)
    else .ok (m.map (fun p => if p.1 == mth.sig then (mth.sig, mth) else p))

/-- Apply a list of methods of entity `ename`, left to right. -/
def applyMethodList (ename : String) (m : List ((String × List SemType) × Method)) :
    List Method → Except ResolutionError (List ((String × List SemType) × Method))
  | [] => .ok m
  | mth :: t =>
    match applyMethod ename m mth with
    | .ok m' => applyMethodList ename m' t
    | .error err => .error err

/-- Apply each named ancestor's own methods, in the given (root-to-leaf) order. -/
def applyChainMethods (s : Schema) (m : List ((String × List SemType) × Method)) :
    List String → Except ResolutionError (List ((String × List SemType) × Method))
  | [] => .ok m
  | n :: rest =>
    match findEntity s n with
    | none => .error (.unknownParent n)
    | some a =>
      match applyMethodList a.name m a.methods with
      | .ok m' => applyChainMethods s m' rest
      | .error err => .error err

/-- Modelled from the spec: the merged method mapping of an entity, ancestors
root-to-leaf then the entity's own methods. -/
def mergeMethods (s : Schema) (chain : List String) (e : Entity) :
    Except ResolutionError (List ((String × List SemType) × Method)) :=
  match applyChainMethods s [] chain with
  | .ok m => applyMethodList e.name m e.methods
  | .error err => .error err

/-- Number of entities declaring the named entity as their parent (the
resolver's closure index consulted by the synthesizer). -/
def childCount (s : Schema) (n : String) : Nat :=
  s.entities.countP (fun e => e.parent == some n)

/-- Modelled from the spec: a concrete (non-abstract-declared) leaf entity
whose merged method set retains a pure-virtual entry fails with
`UnimplementedAbstractMethodError`. -/
def checkAbstract (s : Schema) (e : Entity)
    (mm : List ((String × List SemType) × Method)) : Except ResolutionError Unit :=
  if childCount s e.name = 0 ∧ e.isAbstract = false then
    match mm.find? (fun p => p.2.poly == .pureVirtual) with
    | some p => .error (.unimplementedAbstractMethod e.name p.2.name)
    | none => .ok ()
  else .ok ()

/-- The entity referenced by a reference-typed (possibly collection-wrapped)
semantic type, if any. -/
def SemType.refTarget : SemType → Option String
  | .prim _ => none
  | .str => none
  | .ref n => some n
  | .coll t => t.refTarget

/-- Modelled from the spec: a ResolvedEntity — the entity plus its computed
closure: root-first ancestor chain, merged attribute mapping, merged method
mapping, and cross-unit dependencies from reference-typed attributes. -/
structure ResolvedEntity where
  entity : Entity
  chain : List String
  attrs : List (String × Attribute)
  methods : List ((String × List SemType) × Method)
  deps : List String
deriving DecidableEq

/-- Modelled from the spec: per-entity resolution — ancestor chain, attribute
merge, method merge, pure-virtual check, reference dependencies. -/
def resolveEntity (s : Schema) (e : Entity) : Except ResolutionError ResolvedEntity :=
  match ancestorChain s e.name with
  | .error err => .error err
  | .ok chain =>
    match mergeAttrs s chain e with
    | .error err => .error err
    | .ok attrs =>
      match mergeMethods s chain e with
      | .error err => .error err
      | .ok methods =>
        match checkAbstract s e methods with
        | .error err => .error err
        | .ok _ =>
          .ok ⟨e, chain, attrs, methods, attrs.filterMap (fun p => p.2.ty.refTarget)⟩

/-- Resolve every entity of the list, in order, stopping at the first error. -/
def resolveAll (s : Schema) : List Entity → Except ResolutionError (List (String × ResolvedEntity))
  | [] => .ok []
  | e :: rest =>
    match resolveEntity s e with
    | .error err => .error err
    | .ok r =>
      match resolveAll s rest with
      | .ok tail => .ok ((e.name, r) :: tail)
      | .error err => .error err

/-- Modelled from the spec: `resolve(schema)` (section 4.2) — first the cycle
detection pass (a visited-set walk from each entity toward its root, failing
with `CyclicInheritanceError` if some entity is revisited), then per-entity
chain computation and attribute/method merging; missing from the sources. -/
def resolve (s : Schema) : Except ResolutionError (List (String × ResolvedEntity)) :=
  match s.entities.find? (fun e => !walkToRoot s (s.entities.length + 1) [] e.name) with
  | some e => .error (.cyclicInheritance e.name)
  | none => resolveAll s s.entities

/-! ### Member synthesizer

Modelled from the spec (section 4.3): the synthesizer implementation is
missing from the sources; per the design notes it follows the corrected
contract (one default constructor, well-formed parameter lists). -/

/-- C++ rendering of a semantic type. -/
def SemType.cpp : SemType → String
  | .prim n => n
  | .str => "std::string"
  | .ref n => n
  | .coll t => "std::vector<" ++ t.cpp ++ ">"

/-- Capitalize the first character (accessor naming convention). -/
def capFirst (s : String) : String :=
  match s.data with
  | [] => s
  | c :: t => ⟨toUpperChar c :: t⟩

/-- Join strings with a separator. -/
def joinSep (sep : String) : List String → String
  | [] => ""
  | [x] => x
  | x :: t => x ++ sep ++ joinSep sep t

/-- Modelled from the spec: root-to-leaf fold of destructor virtuality along
a chain of entity names — a node's destructor is virtual when the node has at
least one child or when virtuality was already inherited from above
(propagates down the chain and cannot be revoked). -/
def dtorVirtualFold (s : Schema) (names : List String) : Bool :=
  names.foldl (fun v n => v || !(childCount s n == 0)) false

/-- Modelled from the spec: is the synthesized destructor of a resolved
entity virtual — fold over its root-first ancestor chain followed by the
entity itself. -/
def synthDtorVirtual (s : Schema) (r : ResolvedEntity) : Bool :=
  dtorVirtualFold s (r.chain ++ [r.entity.name])

/-- First method of the list whose signature also occurs later in the list. -/
def dupSig : List Method → Option Method
  | [] => none
  | m :: t => if t.any (fun m2 => m2.sig == m.sig) then some m else dupSig t

/-- Modelled from the spec: an EmittableEntity — the resolved entity enriched
with the concrete member declaration lists the emission engine consumes. -/
structure EmittableEntity where
  name : String
  nsName : String
  brief : String
  parent : Option String
  fieldLines : List String
  ctorLines : List String
  methodLines : List String
  accessorLines : List String
  customIncludes : List String
  refDeps : List String
deriving DecidableEq

/-- Declaration line of a pass-through method. -/
def methodDecl (m : Method) : String :=
  (if m.poly = .virtual ∨ m.poly = .pureVirtual then "virtual " else "")
    ++ (match m.ret with | none => "void" | some t => t.cpp) ++ " " ++ m.name ++ "("
    ++ joinSep ", " (m.params.map (fun p => p.ty.cpp ++ " " ++ p.name)) ++ ")"
    ++ (if m.isConst then " const" else "")
    ++ (if m.poly = .override then " override" else "")
    ++ (if m.poly = .pureVirtual then " = 0" else "") ++ ";"

/-- Modelled from the spec: `synthesize(resolvedEntity) -> EmittableEntity`
(section 4.3); missing from the sources.  Always one default constructor; a
parameterized constructor exactly when the entity declares required
(non-defaulted) attributes, taking them in declaration order, `explicit` when
it has exactly one parameter; the destructor virtual per `synthDtorVirtual`;
accessors/mutators from the merged attribute flags; explicit methods passed
through after duplicate-signature validation. -/
def synthesize (s : Schema) (r : ResolvedEntity) : Except ResolutionError EmittableEntity :=
  match dupSig r.entity.methods with
  | some m => .error (.duplicateMethodSignature r.entity.name m.name)
  | none =>
    let e := r.entity
    let required := e.attrs.filter (fun a => a.defaultVal == none)
    let paramCtor :=
      if required.isEmpty then []
      else [(if required.length == 1 then "explicit " else "") ++ e.name ++ "("
              ++ joinSep ", " (required.map (fun a => a.ty.cpp ++ " " ++ a.name)) ++ ");"]
    let dtor := (if synthDtorVirtual s r then "virtual " else "") ++ "~" ++ e.name ++ "();"
    let getters := (r.attrs.filter (fun p => p.2.derivesAccessor)).map (fun p =>
      p.2.ty.cpp ++ " get" ++ capFirst p.1 ++ "() const;")
    let setters := (r.attrs.filter (fun p => p.2.derivesMutator)).map (fun p =>
      "void set" ++ capFirst p.1 ++ "(" ++ p.2.ty.cpp ++ " value);")
    .ok ⟨e.name, "com.example", e.doc, e.parent,
         e.attrs.map (fun a => a.ty.cpp ++ " " ++ a.name ++ ";"),
         [e.name ++ "();"] ++ paramCtor ++ [dtor],
         e.methods.map methodDecl,
         getters ++ setters,
         [], r.deps⟩

/-! ### Emission engine

Modelled from the spec (section 4.4): the emission engine is missing from the
sources; its textual layout is reconstructed from the two artifact headers. -/

/-- Include group: standard-library, project, or entity-specific/custom. -/
inductive IncludeKind
  | std
  | project
  | custom
deriving DecidableEq

/-- One include of an output unit. -/
structure IncludeRef where
  kind : IncludeKind
  target : String
deriving DecidableEq

/-- The fixed standard-library include block emitted at the head of every
unit, in the generator's order (as observed in both artifact headers). -/
def stdIncludes : List String := ["iostream", "memory", "string", "vector", "map"]

/-- Modelled from the spec and the artifacts: the include list of a unit —
the standard-library block, then the project include of the parent's header,
then the feature-based custom includes (deduplicated). -/
def includesOf (e : EmittableEntity) : List IncludeRef :=
  stdIncludes.map (fun h => ⟨.std, h⟩)
    ++ e.parent.toList.map (fun p => ⟨.project, p ++ ".h"⟩)
    ++ e.customIncludes.dedup.map (fun c => ⟨.custom, c⟩)

/-- Textual form of one include. -/
def IncludeRef.line : IncludeRef → String
  | ⟨.std, t⟩ => "#include <" ++ t ++ ">"
  | ⟨.project, t⟩ => "#include \"" ++ t ++ "\""
  | ⟨.custom, t⟩ => "#include \"" ++ t ++ "\""

/-- The include-guard macro of a unit: the uppercased entity name suffixed
with `_H`. -/
def guardOf (e : EmittableEntity) : String := upperName e.name ++ "_H"

/-- Indent a member line to the class-body level. -/
def indent4 (l : String) : String := "    " ++ l

/-- Head segment of a unit: file comment and include-guard opening. -/
def headerSeg (e : EmittableEntity) : List String :=
  [ "// Auto-generated C++ header file"
  , ""
  , "#ifndef " ++ guardOf e
  , "#define " ++ guardOf e
  , ""
  , "// Standard library includes" ]

/-- Include segment of a unit: the three include groups with their banner
comments. -/
def includeSeg (e : EmittableEntity) : List String :=
  ((includesOf e).filter (fun i => i.kind == .std)).map IncludeRef.line
    ++ [ "", "// Project includes" ]
    ++ ((includesOf e).filter (fun i => i.kind == .project)).map IncludeRef.line
    ++ [ "", "// Custom includes based on features" ]
    ++ ((includesOf e).filter (fun i => i.kind == .custom)).map IncludeRef.line

/-- Namespace opening, documentation block and class head of a unit. -/
def classOpenSeg (e : EmittableEntity) : List String :=
  [ ""
  , "namespace " ++ e.nsName ++ " \x7b"
  , ""
  , "/**"
  , " * @class " ++ e.name
  , " * @brief " ++ e.brief
  , " */"
  , ""
  , "class " ++ e.name
      ++ (match e.parent with | none => "" | some p => " : public " ++ p) ++ " \x7b"
  , "private:" ]

/-- Member section of a unit: private fields then the public members. -/
def membersSeg (e : EmittableEntity) : List String :=
  e.fieldLines.map indent4
    ++ [ "public:", "    // Constructors and Destructor" ]
    ++ e.ctorLines.map indent4
    ++ [ "    // Public methods" ]
    ++ e.methodLines.map indent4
    ++ [ "    // Getters and Setters" ]
    ++ e.accessorLines.map indent4

/-- Tail segment of a unit: class and namespace close and guard end. -/
def closeSeg (e : EmittableEntity) : List String :=
  [ "\x7d;"
  , ""
  , "\x7d // namespace " ++ e.nsName
  , ""
  , "// Inline implementations"
  , ""
  , "#endif // " ++ guardOf e ]

/-- Modelled from the spec and the artifacts: the deterministic line layout
of one rendered declaration unit — guard, includes (std, project, custom
groups), namespace open, documentation block, class declaration with
inheritance clause, private attribute section, public member section,
namespace close, guard end. -/
def renderLines (e : EmittableEntity) : List String :=
  headerSeg e ++ includeSeg e ++ classOpenSeg e ++ membersSeg e ++ closeSeg e

/-- Modelled from the spec: an OutputUnit — unit id, ordered dependency unit
ids (the parent's unit id first, then each referenced entity's), rendered
text. -/
structure OutputUnit where
  id : String
  deps : List String
  text : String
deriving DecidableEq

/-- Modelled from the spec: `render(emittableEntity) -> OutputUnit`
(section 4.4), a pure function of the EmittableEntity; missing from the
sources. -/
def render (e : EmittableEntity) : OutputUnit :=
  ⟨e.name, e.parent.toList ++ e.refDeps, joinSep "\n" (renderLines e)⟩

/-! ### Generation driver

Modelled from the spec (section 4.5): the driver is missing from the sources. -/

/-- Diagnostic severity. -/
inductive Severity
  | fatal
  | nonfatal
deriving DecidableEq

/-- Modelled from the spec: a diagnostic record
`{severity, entityName or None, message, errorKind}` (section 6). -/
structure Diagnostic where
  severity : Severity
  entityName : Option String
  message : String
  errorKind : String
deriving DecidableEq

/-- The offending entity of an error, when known. -/
def ResolutionError.entityOf : ResolutionError → Option String
  | .unknownParent e => some e
  | .cyclicInheritance e => some e
  | .attributeTypeConflict _ => none
  | .invalidOverride e _ => some e
  | .unimplementedAbstractMethod e _ => some e
  | .duplicateMethodSignature e _ => some e

/-- The taxonomy name of an error (section 7). -/
def ResolutionError.kindName : ResolutionError → String
  | .unknownParent _ => "UnknownParentError"
  | .cyclicInheritance _ => "CyclicInheritanceError"
  | .attributeTypeConflict _ => "AttributeTypeConflictError"
  | .invalidOverride _ _ => "InvalidOverrideError"
  | .unimplementedAbstractMethod _ _ => "UnimplementedAbstractMethodError"
  | .duplicateMethodSignature _ _ => "DuplicateMethodSignatureError"

/-- Modelled from the spec: `GenerationResult` — named output units plus
diagnostics. -/
structure GenerationResult where
  units : List (String × OutputUnit)
  diagnostics : List Diagnostic
deriving DecidableEq

/-- Synthesize and render each resolved entity independently; a per-entity
failure is recorded as one non-fatal diagnostic and its unit omitted. -/
def genUnits (s : Schema) : List (String × ResolvedEntity) → GenerationResult
  | [] => ⟨[], []⟩
  | (n, r) :: rest =>
    let acc := genUnits s rest
    match synthesize s r with
    | .ok em => ⟨(n, render em) :: acc.units, acc.diagnostics⟩
    | .error err => ⟨acc.units, ⟨.nonfatal, some n, "synthesis failed", err.kindName⟩ :: acc.diagnostics⟩

/-- Modelled from the spec: `generate(schema)` (section 4.5) — runs the
resolver once; on resolution failure aborts with zero units and exactly one
fatal diagnostic; on success processes entities independently with the
partial-success policy; missing from the sources. -/
def generate (s : Schema) : GenerationResult :=
  match resolve s with
  | .error err => ⟨[], [⟨.fatal, err.entityOf, "resolution failed", err.kindName⟩]⟩
  | .ok rs => genUnits s rs

/-! ### Concrete schemas

The worked example of spec section 8 (the Person/Employee schema the artifact
headers were generated from), and small schemas exercising the failure
paths. -/

/-- `name : string`, accessor and mutator. -/
def personNameAttr : Attribute := ⟨"name", .str, none, true, true, false⟩

/-- `age : int`, accessor only. -/
def personAgeAttr : Attribute := ⟨"age", .prim "int", none, true, false, false⟩

/-- `virtual display() const`. -/
def displayMethod : Method := ⟨"display", none, [], true, .virtual, false⟩

/-- The Person entity of the section-8 example schema. -/
def personEntity : Entity :=
  ⟨"Person", none, [personNameAttr, personAgeAttr], [displayMethod], "A person entity", false⟩

/-- `employeeId : string`, accessor only, required. -/
def employeeIdAttr : Attribute := ⟨"employeeId", .str, none, true, false, false⟩

/-- `salary : double = 0.0`, mutator only, defaulted. -/
def salaryAttr : Attribute := ⟨"salary", .prim "double", some "0.0", false, true, false⟩

/-- `display() const override`. -/
def displayOverrideMethod : Method := ⟨"display", none, [], true, .override, false⟩

/-- The Employee entity of the section-8 example schema. -/
def employeeEntity : Entity :=
  ⟨"Employee", some "Person", [employeeIdAttr, salaryAttr], [displayOverrideMethod],
   "An employee entity", false⟩

/-- The section-8 example schema: Person, and Employee extending Person. -/
def specSchema : Schema := ⟨[personEntity, employeeEntity]⟩

/-- A one-entity schema whose entity declares itself as parent (cycle of
length 1). -/
def selfCycleSchema : Schema := ⟨[⟨"A", some "A", [], [], "", false⟩]⟩

/-- A two-entity inheritance cycle. -/
def twoCycleSchema : Schema :=
  ⟨[⟨"A", some "B", [], [], "", false⟩, ⟨"B", some "A", [], [], "", false⟩]⟩

/-- A three-entity inheritance cycle. -/
def threeCycleSchema : Schema :=
  ⟨[⟨"A", some "B", [], [], "", false⟩, ⟨"B", some "C", [], [], "", false⟩,
    ⟨"C", some "A", [], [], "", false⟩]⟩

/-- An acyclic schema in which the child re-declares attribute `x` with a
different type (`int` at the root, `string` at the leaf). -/
def conflictSchema : Schema :=
  ⟨[⟨"Base", none, [⟨"x", .prim "int", none, false, false, false⟩], [], "", false⟩,
    ⟨"Child", some "Base", [⟨"x", .str, none, false, false, false⟩], [], "", false⟩]⟩

/-! ### Auxiliary definitions for the verification -/

/-- Is an `Except` result a success? -/
def isOkResult {ε α : Type} : Except ε α → Bool
  | .ok _ => true
  | .error _ => false

/-- Consecutive entries of a (newest-first) name list are linked by parent
steps: each entry is the parent of the entry after it.  This is the shape
invariant of the visited list built by `walkToRoot`. -/
def linkedPath (s : Schema) : List String → Prop
  | [] => True
  | [_] => True
  | a :: b :: t => parentStep s b = some a ∧ linkedPath s (b :: t)

/-- A sample emittable entity (the corrected-contract Person members). -/
def sampleEmittable : EmittableEntity :=
  ⟨"Person", "com.example", "A person entity", none,
   ["std::string name;", "int age;"],
   ["Person();", "Person(std::string name, int age);", "virtual ~Person();"],
   ["virtual void display() const;"],
   ["std::string getName() const;", "int getAge() const;", "void setName(std::string value);"],
   [], []⟩

/-- A sample resolved Employee: the entity with its root-first ancestor chain
`["Person"]` (merge data irrelevant to the destructor fold). -/
def employeeResolvedSample : ResolvedEntity :=
  ⟨employeeEntity, ["Person"], [], [], []⟩

/-- The root attribute `x : int` of `conflictSchema`. -/
def baseXAttr : Attribute := ⟨"x", .prim "int", none, false, false, false⟩

/-- A re-declaration of `x` with the same type but a new default and flags. -/
def childXSameTy : Attribute := ⟨"x", .prim "int", some "1", true, false, false⟩

/-- A re-declaration of `x` with a different type. -/
def childXDiffTy : Attribute := ⟨"x", .str, none, false, false, false⟩

/-! ## Theorems

General lemmas about the resolver's walk, then one theorem per claim. -/

theorem parentIter_add (s : Schema) (a b : Nat) (n : String) :
    parentIter s (a + b) n = (parentIter s a n).bind (parentIter s b) := by
  induction a generalizing n with
  | zero => simp [parentIter]
  | succ a ih =>
    rw [show a + 1 + b = (a + b) + 1 from by omega]
    simp only [parentIter]
    cases parentStep s n with
    | none => simp
    | some m => simp [ih]

theorem parentIter_succ_right (s : Schema) (k : Nat) (n : String) :
    parentIter s (k + 1) n = (parentIter s k n).bind (parentStep s) := by
  rw [parentIter_add s k 1]
  cases parentIter s k n with
  | none => rfl
  | some m =>
    show parentIter s 1 m = _
    cases h : parentStep s m <;> simp [parentIter, h]

theorem linkedPath_cycle (s : Schema) (a : String) (t : List String)
    (hl : linkedPath s (a :: t)) (b : String) (hb : b ∈ t) :
    ∃ k, 1 ≤ k ∧ k ≤ t.length ∧ parentIter s k b = some a := by
  induction t generalizing a with
  | nil => cases hb
  | cons c t ih =>
    obtain ⟨hstep, hrest⟩ := hl
    rcases List.mem_cons.mp hb with hbc | hbt
    · subst hbc
      refine ⟨1, le_refl 1, by simp, ?_⟩
      simp [parentIter, hstep]
    · obtain ⟨k, hk1, hkl, hit⟩ := ih c hrest hbt
      refine ⟨k + 1, by omega, by simp; omega, ?_⟩
      rw [parentIter_succ_right, hit]
      simpa using hstep

theorem findEntity_some (s : Schema) (v : String) (e : Entity)
    (h : findEntity s v = some e) : e ∈ s.entities ∧ e.name = v := by
  refine ⟨List.mem_of_find?_eq_some h, ?_⟩
  have := List.find?_some h
  simpa using this

theorem visited_length_le (s : Schema) (l : List String) (hn : l.Nodup)
    (hmem : ∀ v ∈ l, (findEntity s v).isSome = true) :
    l.length ≤ s.entities.length := by
  have hsub : l ⊆ s.entities.map Entity.name := by
    intro v hv
    obtain ⟨e, he⟩ := Option.isSome_iff_exists.mp (hmem v hv)
    obtain ⟨hm, hname⟩ := findEntity_some s v e he
    exact List.mem_map.mpr ⟨e, hm, hname⟩
  calc l.length ≤ (s.entities.map Entity.name).length := (hn.subperm hsub).length_le
    _ = s.entities.length := by simp

theorem walkToRoot_true (s : Schema)
    (hacyc : ∀ e ∈ s.entities, ∀ k, 1 ≤ k → k ≤ s.entities.length →
      parentIter s k e.name ≠ some e.name) :
    ∀ fuel visited cur, linkedPath s (cur :: visited) → visited.Nodup →
      (∀ v ∈ visited, (findEntity s v).isSome = true) →
      fuel + visited.length = s.entities.length + 1 →
      walkToRoot s fuel visited cur = true := by
  intro fuel
  induction fuel with
  | zero =>
    intro visited cur _ hn hm hf
    exfalso
    have := visited_length_le s visited hn hm
    omega
  | succ fuel ih =>
    intro visited cur hl hn hm hf
    simp only [walkToRoot]
    by_cases hcv : cur ∈ visited
    · exfalso
      obtain ⟨e, he⟩ := Option.isSome_iff_exists.mp (hm cur hcv)
      obtain ⟨hemem, hename⟩ := findEntity_some s cur e he
      obtain ⟨k, hk1, hkl, hit⟩ := linkedPath_cycle s cur visited hl cur hcv
      have hbound : visited.length ≤ s.entities.length := visited_length_le s visited hn hm
      exact hacyc e hemem k hk1 (by omega) (by rw [hename]; exact hit)
    · rw [if_neg hcv]
      cases hps : parentStep s cur with
      | none => rfl
      | some p =>
        apply ih (cur :: visited) p ⟨hps, hl⟩ (List.nodup_cons.mpr ⟨hcv, hn⟩) ?_ (by simp; omega)
        intro v hv
        rcases List.mem_cons.mp hv with h1 | h2
        · subst h1
          unfold parentStep at hps
          cases hfe : findEntity s v with
          | none => rw [hfe] at hps; simp at hps
          | some e2 => simp [hfe]
        · exact hm v h2

theorem resolve_eq_resolveAll (s : Schema)
    (hacyc : ∀ e ∈ s.entities, ∀ k, 1 ≤ k → k ≤ s.entities.length →
      parentIter s k e.name ≠ some e.name) :
    resolve s = resolveAll s s.entities := by
  unfold resolve
  have hfind : s.entities.find?
      (fun e => !walkToRoot s (s.entities.length + 1) [] e.name) = none := by
    apply List.find?_eq_none.mpr
    intro e he
    have hw : walkToRoot s (s.entities.length + 1) [] e.name = true := by
      apply walkToRoot_true s hacyc (s.entities.length + 1) [] e.name
      · show linkedPath s [e.name]
        simp [linkedPath]
      · exact List.nodup_nil
      · intro v hv
        cases hv
      · simp
    simp [hw]
  rw [hfind]

theorem parentIter_cycle_repeat (s : Schema) (n : String) (k : Nat)
    (hcyc : parentIter s k n = some n) :
    ∀ q r, parentIter s (q * k + r) n = parentIter s r n := by
  intro q
  induction q with
  | zero => simp
  | succ q ih =>
    intro r
    rw [show (q + 1) * k + r = k + (q * k + r) from by ring]
    rw [parentIter_add, hcyc]
    simpa using ih r

theorem parentIter_cycle_defined (s : Schema) (n : String) (k : Nat) (hk : 1 ≤ k)
    (hcyc : parentIter s k n = some n) : ∀ j, (parentIter s j n).isSome = true := by
  intro j
  have hmod : parentIter s j n = parentIter s (j % k) n := by
    conv_lhs => rw [show j = k * (j / k) + j % k from (Nat.div_add_mod j k).symm]
    rw [Nat.mul_comm k (j / k)]
    exact parentIter_cycle_repeat s n k hcyc (j / k) (j % k)
  rw [hmod]
  have hsplit : parentIter s ((j % k) + (k - j % k)) n = some n := by
    rw [show (j % k) + (k - j % k) = k from by
      have : j % k < k := Nat.mod_lt _ (by omega)
      omega]
    exact hcyc
  rw [parentIter_add] at hsplit
  cases h : parentIter s (j % k) n with
  | none => rw [h] at hsplit; simp at hsplit
  | some m => simp

theorem walkToRoot_false_on_cycle (s : Schema) (n : String) (k : Nat) (hk : 1 ≤ k)
    (hcyc : parentIter s k n = some n) :
    ∀ fuel visited j cur, parentIter s j n = some cur →
      walkToRoot s fuel visited cur = false := by
  intro fuel
  induction fuel with
  | zero => intro visited j cur _; rfl
  | succ fuel ih =>
    intro visited j cur hj
    simp only [walkToRoot]
    by_cases hcv : cur ∈ visited
    · rw [if_pos hcv]
    · rw [if_neg hcv]
      have hdef : (parentIter s (j + 1) n).isSome = true :=
        parentIter_cycle_defined s n k hk hcyc (j + 1)
      rw [parentIter_succ_right, hj] at hdef
      obtain ⟨p, hp⟩ := Option.isSome_iff_exists.mp (by simpa using hdef)
      rw [hp]
      apply ih (cur :: visited) (j + 1) p
      rw [parentIter_succ_right, hj]
      simpa using hp

theorem resolveAll_ok (s : Schema) (l : List Entity)
    (h : ∀ e ∈ l, isOkResult (resolveEntity s e) = true) :
    ∃ rs, resolveAll s l = .ok rs ∧ rs.map Prod.fst = l.map Entity.name := by
  induction l with
  | nil => exact ⟨[], rfl, rfl⟩
  | cons e t ih =>
    have he := h e (List.mem_cons_self e t)
    obtain ⟨r, hr⟩ : ∃ r, resolveEntity s e = .ok r := by
      cases hre : resolveEntity s e with
      | ok r => exact ⟨r, rfl⟩
      | error err => rw [hre] at he; simp [isOkResult] at he
    obtain ⟨rs, hrs, hmap⟩ := ih (fun e2 he2 => h e2 (List.mem_cons_of_mem _ he2))
    refine ⟨(e.name, r) :: rs, ?_, by simp [hmap]⟩
    simp only [resolveAll, hr, hrs]

/-- C1 (amended): for every schema whose inheritance graph contains no cycle
(no entity name returns to itself under iterated parent steps within the
schema's size) and on which no per-entity resolution error (unknown parent,
attribute type conflict, invalid override, unimplemented pure-virtual
method) occurs, `resolve` terminates and returns a mapping containing
exactly one ResolvedEntity for each Entity of the input schema, in order —
no entity dropped, none duplicated. -/
theorem resolve_total_on_valid_schemas (s : Schema)
    (hacyc : ∀ e ∈ s.entities, ∀ k, 1 ≤ k → k ≤ s.entities.length →
      parentIter s k e.name ≠ some e.name)
    (hok : ∀ e ∈ s.entities, isOkResult (resolveEntity s e) = true) :
    ∃ rs, resolve s = .ok rs ∧ rs.map Prod.fst = s.entities.map Entity.name := by
  rw [resolve_eq_resolveAll s hacyc]
  exact resolveAll_ok s s.entities hok

/-- Witness for C1: the section-8 Person/Employee schema is acyclic, all its
entities resolve, and `resolve` returns one ResolvedEntity per entity. -/
theorem resolve_total_on_valid_schemas_witness :
    (∀ e ∈ specSchema.entities, ∀ k, 1 ≤ k → k ≤ specSchema.entities.length →
      parentIter specSchema k e.name ≠ some e.name) ∧
    (∀ e ∈ specSchema.entities, isOkResult (resolveEntity specSchema e) = true) ∧
    ∃ rs, resolve specSchema = .ok rs ∧
      rs.map Prod.fst = specSchema.entities.map Entity.name :=
  ⟨by decide, by decide,
   resolve_total_on_valid_schemas specSchema (by decide) (by decide)⟩

/-- Counterexample for C1 as stated: `conflictSchema` is acyclic (its
inheritance graph has no cycle), yet `resolve` does not return a mapping — it
fails with `AttributeTypeConflictError` because the child re-declares
attribute `x` at a different type. -/
theorem resolve_not_total_on_acyclic_schema :
    (∀ e ∈ conflictSchema.entities, ∀ k, 1 ≤ k → k ≤ conflictSchema.entities.length →
      parentIter conflictSchema k e.name ≠ some e.name) ∧
    resolve conflictSchema = .error (.attributeTypeConflict "x") :=
  ⟨by decide, rfl⟩

/-- C3: for every schema containing an entity that is, directly or
transitively, its own ancestor (it returns to itself after `k ≥ 1` parent
steps, any cycle length), `resolve` fails with `CyclicInheritanceError`. -/
theorem cyclic_schema_resolve_fails (s : Schema) (e : Entity) (he : e ∈ s.entities)
    (k : Nat) (hk : 1 ≤ k) (hcyc : parentIter s k e.name = some e.name) :
    ∃ n, resolve s = .error (.cyclicInheritance n) := by
  unfold resolve
  have hw : walkToRoot s (s.entities.length + 1) [] e.name = false :=
    walkToRoot_false_on_cycle s e.name k hk hcyc _ [] 0 e.name (by simp [parentIter])
  have hsome : (s.entities.find?
      (fun e2 => !walkToRoot s (s.entities.length + 1) [] e2.name)).isSome = true := by
    rw [List.find?_isSome]
    exact ⟨e, he, by simp [hw]⟩
  obtain ⟨x, hx⟩ := Option.isSome_iff_exists.mp hsome
  rw [hx]
  exact ⟨x.name, rfl⟩

/-- Witness for C3: the 1-, 2- and 3-entity inheritance cycles all fail
resolution with `CyclicInheritanceError`. -/
theorem cyclic_schema_resolve_fails_witness :
    (∃ n, resolve selfCycleSchema = .error (.cyclicInheritance n)) ∧
    (∃ n, resolve twoCycleSchema = .error (.cyclicInheritance n)) ∧
    (∃ n, resolve threeCycleSchema = .error (.cyclicInheritance n)) :=
  ⟨cyclic_schema_resolve_fails selfCycleSchema ⟨"A", some "A", [], [], "", false⟩
      (by decide) 1 (by decide) rfl,
   cyclic_schema_resolve_fails twoCycleSchema ⟨"A", some "B", [], [], "", false⟩
      (by decide) 2 (by decide) rfl,
   cyclic_schema_resolve_fails threeCycleSchema ⟨"A", some "B", [], [], "", false⟩
      (by decide) 3 (by decide) rfl⟩

theorem lookup_replace (m : List (String × Attribute)) (a old : Attribute)
    (hm : m.lookup a.name = some old) :
    (m.map (fun p => if p.1 == a.name then (a.name, a) else p)).lookup a.name = some a := by
  induction m with
  | nil => simp at hm
  | cons p t ih =>
    by_cases hk : p.1 = a.name
    · simp [List.lookup_cons, hk]
    · have hk2 : (a.name == p.1) = false := by
        simp
        exact fun h => hk h.symm
      rw [List.lookup_cons, hk2] at hm
      simp only [List.map_cons]
      rw [if_neg (by simpa using hk)]
      rw [List.lookup_cons, hk2]
      exact ih hm

theorem lookup_replace_ne (m : List (String × Attribute)) (a : Attribute) (x : String)
    (hx : x ≠ a.name) :
    (m.map (fun p => if p.1 == a.name then (a.name, a) else p)).lookup x = m.lookup x := by
  induction m with
  | nil => rfl
  | cons p t ih =>
    by_cases hk : p.1 = a.name
    · have hxk : (x == p.1) = false := by
        simp
        rw [hk]
        exact hx
      simp only [List.map_cons]
      rw [if_pos (by simpa using hk)]
      rw [List.lookup_cons, List.lookup_cons, hxk]
      have hxa : (x == a.name) = false := by simpa using hx
      rw [hxa]
      exact ih
    · simp only [List.map_cons]
      rw [if_neg (by simpa using hk)]
      rw [List.lookup_cons, List.lookup_cons]
      cases hxp : (x == p.1) with
      | true => rfl
      | false => exact ih

/-- C4: in attribute merging, with the merged mapping holding entry `old` for
the name of a child attribute `a`: if `a` has the same type, the merge step
replaces (does not duplicate) the ancestor's entry — `a` is looked up at that
name, the mapping's size is unchanged, and every other name is untouched; if
`a` has a different type, the merge step fails with
`AttributeTypeConflictError`, and so does `resolve` on the concrete
parent/child schema re-declaring `x : int` as `x : string`. -/
theorem attribute_override_policy (m : List (String × Attribute)) (a old : Attribute)
    (hm : m.lookup a.name = some old) :
    (a.ty = old.ty →
      ∃ m', applyAttr m a = .ok m' ∧ m'.lookup a.name = some a ∧
        m'.length = m.length ∧ ∀ x, x ≠ a.name → m'.lookup x = m.lookup x) ∧
    (a.ty ≠ old.ty → applyAttr m a = .error (.attributeTypeConflict a.name)) ∧
    resolve conflictSchema = .error (.attributeTypeConflict "x") := by
  refine ⟨?_, ?_, rfl⟩
  · intro hty
    refine ⟨_, ?_, lookup_replace m a old hm, by simp,
      fun x hx => lookup_replace_ne m a x hx⟩
    simp only [applyAttr, hm]
    rw [if_pos hty.symm]
  · intro hty
    simp only [applyAttr, hm]
    rw [if_neg (fun h => hty h.symm)]

/-- Witness for C4: merging the same-type re-declaration of `x` over the
one-entry mapping for `baseXAttr` replaces the entry in place; merging the
different-type re-declaration fails with the conflict error. -/
theorem attribute_override_policy_witness :
    ((childXSameTy.ty = baseXAttr.ty →
      ∃ m', applyAttr [("x", baseXAttr)] childXSameTy = .ok m' ∧
        m'.lookup childXSameTy.name = some childXSameTy ∧
        m'.length = [("x", baseXAttr)].length ∧
        ∀ x, x ≠ childXSameTy.name → m'.lookup x = [("x", baseXAttr)].lookup x) ∧
     (childXSameTy.ty ≠ baseXAttr.ty →
      applyAttr [("x", baseXAttr)] childXSameTy =
        .error (.attributeTypeConflict childXSameTy.name)) ∧
     resolve conflictSchema = .error (.attributeTypeConflict "x")) ∧
    applyAttr [("x", baseXAttr)] childXDiffTy =
      .error (.attributeTypeConflict childXDiffTy.name) :=
  ⟨attribute_override_policy [("x", baseXAttr)] childXSameTy baseXAttr rfl,
   (attribute_override_policy [("x", baseXAttr)] childXDiffTy baseXAttr rfl).2.1
     (by decide)⟩

/-- C2: `render` is a pure function of its EmittableEntity argument — two
invocations on equal inputs yield byte-identical OutputUnit text (in this
embedding `render` is a mathematical function, so rendering depends on
nothing but the argument, and equal arguments give equal text). -/
theorem render_deterministic (e₁ e₂ : EmittableEntity) (h : e₁ = e₂) :
    (render e₁).text = (render e₂).text := by
  rw [h]

/-- Witness for C2: rendering the sample Person emittable entity twice gives
identical text. -/
theorem render_deterministic_witness :
    (render sampleEmittable).text = (render sampleEmittable).text :=
  render_deterministic sampleEmittable sampleEmittable rfl

theorem dtorVirtualFold_append_true (s : Schema) (l₁ l₂ : List String)
    (h : dtorVirtualFold s l₁ = true) : dtorVirtualFold s (l₁ ++ l₂) = true := by
  unfold dtorVirtualFold at h ⊢
  rw [List.foldl_append, h]
  induction l₂ with
  | nil => rfl
  | cons n t ih => simpa using ih

/-- C7: destructor virtuality propagates down the inheritance chain and
cannot be revoked — for every resolved entity whose root-first ancestor
chain has a prefix already carrying a virtual destructor (an ancestor whose
own fold is virtual), the entity's own synthesized destructor is virtual;
in particular, in the section-8 schema, Employee's destructor is virtual
because it inherits one from Person even with no children of its own. -/
theorem dtor_virtuality_propagates (s : Schema) (r : ResolvedEntity)
    (c₁ c₂ : List String) (hsplit : r.chain = c₁ ++ c₂)
    (hvirt : dtorVirtualFold s c₁ = true) :
    synthDtorVirtual s r = true ∧
    (resolve specSchema).map (fun rs => (rs.lookup "Employee").map
      (fun r2 => synthDtorVirtual specSchema r2)) = .ok (some true) := by
  refine ⟨?_, rfl⟩
  unfold synthDtorVirtual
  rw [hsplit, List.append_assoc]
  exact dtorVirtualFold_append_true s c₁ (c₂ ++ [r.entity.name]) hvirt

/-- Witness for C7: the sample resolved Employee (ancestor chain
`["Person"]`, with Person's destructor virtual since Person has a child) has
a virtual synthesized destructor. -/
theorem dtor_virtuality_propagates_witness :
    synthDtorVirtual specSchema employeeResolvedSample = true ∧
    (resolve specSchema).map (fun rs => (rs.lookup "Employee").map
      (fun r2 => synthDtorVirtual specSchema r2)) = .ok (some true) :=
  dtor_virtuality_propagates specSchema employeeResolvedSample ["Person"] []
    rfl (by decide)

/-- C9: `generate` is atomic with respect to resolution failure — for every
schema on which `resolve` fails, the GenerationResult has zero OutputUnits
and exactly one diagnostic, which is fatal (no partial output). -/
theorem generate_atomic_on_resolution_failure (s : Schema) (err : ResolutionError)
    (h : resolve s = .error err) :
    (generate s).units = [] ∧ (generate s).diagnostics.length = 1 ∧
    ∀ d ∈ (generate s).diagnostics, d.severity = .fatal := by
  unfold generate
  rw [h]
  refine ⟨rfl, rfl, ?_⟩
  intro d hd
  rcases List.mem_singleton.mp hd with h2
  rw [h2]

/-- Witness for C9: on the self-cycle schema, whose resolution fails,
generation yields zero units and one fatal diagnostic. -/
theorem generate_atomic_on_resolution_failure_witness :
    (generate selfCycleSchema).units = [] ∧
    (generate selfCycleSchema).diagnostics.length = 1 ∧
    ∀ d ∈ (generate selfCycleSchema).diagnostics, d.severity = .fatal :=
  generate_atomic_on_resolution_failure selfCycleSchema (.cyclicInheritance "A") rfl

/-- C5 is violated by the checked-in generated code: `Person.h` declares the
default constructor `Person();` twice (lines 33–34), not exactly once;
`Employee.h` declares it once.  The corrected-contract synthesizer model, by
contrast, emits exactly one `Person();` line. -/
theorem person_header_has_duplicate_default_ctor :
    defaultCtorDeclCount personHeaderLines "Person" = 2 ∧
    defaultCtorDeclCount employeeHeaderLines "Employee" = 1 ∧
    (resolve specSchema).map (fun rs => (rs.lookup "Person").map
      (fun r => (synthesize specSchema r).map
        (fun em => em.ctorLines.countP (fun l => l == "Person();"))))
      = .ok (some (.ok 1)) := by
  refine ⟨by decide, by decide, rfl⟩

/-- C6 is violated by the checked-in generated code: `Person.h` marks its
two-parameter constructor `explicit` (the single `explicit` line carries one
comma, hence two parameters), although `explicit` is specified for exactly
one parameter; and `Employee.h` declares no parameterized constructor at all
although Employee has the required (non-defaulted) attribute `employeeId`.
The corrected-contract synthesizer model instead emits a plain two-parameter
constructor for Person and an explicit one-parameter constructor for
Employee. -/
theorem person_header_explicit_ctor_malformed :
    explicitCtorLines personHeaderLines =
      ["    explicit Person(std::string& name, int age"] ∧
    (explicitCtorLines personHeaderLines).map commaCount = [1] ∧
    paramCtorDeclCount employeeHeaderLines "Employee" = 0 ∧
    (resolve specSchema).map (fun rs => (rs.lookup "Person").map
      (fun r => (synthesize specSchema r).map (fun em => em.ctorLines)))
      = .ok (some (.ok
          ["Person();", "Person(std::string name, int age);", "virtual ~Person();"])) ∧
    (resolve specSchema).map (fun rs => (rs.lookup "Employee").map
      (fun r => (synthesize specSchema r).map (fun em => em.ctorLines)))
      = .ok (some (.ok
          ["Employee();", "explicit Employee(std::string employeeId);",
           "virtual ~Employee();"])) := by
  refine ⟨by decide, by decide, by decide, rfl, rfl⟩

theorem filter_map_kind_eq {α : Type} (l : List α) (f : α → IncludeRef) (k : IncludeKind)
    (h : ∀ x, (f x).kind = k) :
    (l.map f).filter (fun i => i.kind == k) = l.map f := by
  induction l with
  | nil => rfl
  | cons x t ih => simp [List.filter_cons, h x, ih]

theorem filter_map_kind_ne {α : Type} (l : List α) (f : α → IncludeRef) (k k2 : IncludeKind)
    (h : ∀ x, (f x).kind = k) (hne : (k == k2) = false) :
    (l.map f).filter (fun i => i.kind == k2) = [] := by
  induction l with
  | nil => rfl
  | cons x t ih => simp [List.filter_cons, h x, hne, ih]

theorem includesOf_kind_filters (e : EmittableEntity) :
    (includesOf e).filter (fun i => i.kind == .std)
      = stdIncludes.map (fun h => ⟨.std, h⟩) ∧
    (includesOf e).filter (fun i => i.kind == .project)
      = e.parent.toList.map (fun p => ⟨.project, p ++ ".h"⟩) ∧
    (includesOf e).filter (fun i => i.kind == .custom)
      = e.customIncludes.dedup.map (fun c => ⟨.custom, c⟩) := by
  unfold includesOf
  refine ⟨?_, ?_, ?_⟩ <;> simp only [List.filter_append]
  · rw [filter_map_kind_eq _ _ IncludeKind.std (fun x => rfl),
        filter_map_kind_ne _ _ IncludeKind.project IncludeKind.std (fun x => rfl) (by decide),
        filter_map_kind_ne _ _ IncludeKind.custom IncludeKind.std (fun x => rfl) (by decide)]
    simp
  · rw [filter_map_kind_ne _ _ IncludeKind.std IncludeKind.project (fun x => rfl) (by decide),
        filter_map_kind_eq _ _ IncludeKind.project (fun x => rfl),
        filter_map_kind_ne _ _ IncludeKind.custom IncludeKind.project (fun x => rfl) (by decide)]
    simp
  · rw [filter_map_kind_ne _ _ IncludeKind.std IncludeKind.custom (fun x => rfl) (by decide),
        filter_map_kind_ne _ _ IncludeKind.project IncludeKind.custom (fun x => rfl) (by decide),
        filter_map_kind_eq _ _ IncludeKind.custom (fun x => rfl)]
    simp

theorem includesOf_nodup (e : EmittableEntity) : (includesOf e).Nodup := by
  unfold includesOf
  rw [List.append_assoc]
  have hstd : (stdIncludes.map (fun h => (⟨.std, h⟩ : IncludeRef))).Nodup := by
    apply List.Nodup.map
    · intro a b hab
      simpa using hab
    · decide
  have hproj : (e.parent.toList.map
      (fun p => (⟨.project, p ++ ".h"⟩ : IncludeRef))).Nodup := by
    cases e.parent <;> simp
  have hcust : (e.customIncludes.dedup.map
      (fun c => (⟨.custom, c⟩ : IncludeRef))).Nodup := by
    apply List.Nodup.map
    · intro a b hab
      simpa using hab
    · exact List.nodup_dedup _
  refine List.Nodup.append hstd (List.Nodup.append hproj hcust ?_) ?_
  · intro a ha hb
    obtain ⟨p, hp, hpe⟩ := List.mem_map.mp ha
    obtain ⟨c, hc, hce⟩ := List.mem_map.mp hb
    rw [← hpe] at hce
    simp at hce
  · intro a ha hb
    obtain ⟨x, hx, hxe⟩ := List.mem_map.mp ha
    rcases List.mem_append.mp hb with h1 | h1
    · obtain ⟨p, hp, hpe⟩ := List.mem_map.mp h1
      rw [← hxe] at hpe
      simp at hpe
    · obtain ⟨c, hc, hce⟩ := List.mem_map.mp h1
      rw [← hxe] at hce
      simp at hce

/-- Counterexample for C8 as stated: in the checked-in rendered unit
`Person.h`, the standard-library include list is `iostream, memory, string,
vector, map` — not alphabetically sorted (`vector` precedes `map`). -/
theorem person_includes_not_alphabetically_sorted :
    angleIncludeTargets personHeaderLines
      = ["iostream", "memory", "string", "vector", "map"] ∧
    sortedAlpha (angleIncludeTargets personHeaderLines) = false ∧
    alphaLe "vector" "map" = false :=
  ⟨by decide, by decide, by decide⟩

/-- C8 (amended): within every rendered OutputUnit the include list is
deduplicated, and it is grouped with the standard-library includes first,
then the project includes, then the entity-specific/custom includes; the
standard-library group appears in the generator's fixed order
`iostream, memory, string, vector, map` (not alphabetically sorted). -/
theorem includes_deduplicated_and_grouped (e : EmittableEntity) :
    (includesOf e).Nodup ∧
    includesOf e =
      (includesOf e).filter (fun i => i.kind == .std)
        ++ (includesOf e).filter (fun i => i.kind == .project)
        ++ (includesOf e).filter (fun i => i.kind == .custom) ∧
    ((includesOf e).filter (fun i => i.kind == .std)).map IncludeRef.target
      = stdIncludes := by
  obtain ⟨h1, h2, h3⟩ := includesOf_kind_filters e
  refine ⟨includesOf_nodup e, ?_, ?_⟩
  · rw [h1, h2, h3]
    rfl
  · rw [h1, List.map_map]
    have hcomp : (IncludeRef.target ∘ fun h => (⟨.std, h⟩ : IncludeRef)) = id := rfl
    rw [hcomp, List.map_id]

theorem isDirective_ifndef (g : String) : isDirective ("#ifndef " ++ g) = true := by
  obtain ⟨d⟩ := g
  rfl

theorem isDirective_define (g : String) : isDirective ("#define " ++ g) = true := by
  obtain ⟨d⟩ := g
  rfl

theorem isDirective_endif (g : String) : isDirective ("#endif // " ++ g) = true := by
  obtain ⟨d⟩ := g
  rfl

theorem isDirective_indent4 (l : String) : isDirective (indent4 l) = false := by
  obtain ⟨d⟩ := l
  rfl

theorem isDirective_nsOpen (n : String) :
    isDirective ("namespace " ++ n ++ " \x7b") = false := by
  obtain ⟨d⟩ := n
  rfl

theorem isDirective_atClass (n : String) : isDirective (" * @class " ++ n) = false := by
  obtain ⟨d⟩ := n
  rfl

theorem isDirective_atBrief (b : String) : isDirective (" * @brief " ++ b) = false := by
  obtain ⟨d⟩ := b
  rfl

theorem isDirective_classDecl (n m x : String) :
    isDirective ("class " ++ n ++ m ++ x) = false := by
  obtain ⟨nd⟩ := n
  obtain ⟨md⟩ := m
  obtain ⟨xd⟩ := x
  rfl

theorem isDirective_closeNs (n : String) :
    isDirective ("\x7d // namespace " ++ n) = false := by
  obtain ⟨d⟩ := n
  rfl

theorem isDirective_includeLine (i : IncludeRef) : isDirective i.line = true := by
  obtain ⟨k, t⟩ := i
  obtain ⟨td⟩ := t
  cases k <;> rfl

theorem filter_isDirective_indent4 (l : List String) :
    (l.map indent4).filter isDirective = [] := by
  induction l with
  | nil => rfl
  | cons x t ih => simp [List.filter_cons, isDirective_indent4, ih]

theorem filter_isDirective_includeLines (l : List IncludeRef) :
    (l.map IncludeRef.line).filter isDirective = l.map IncludeRef.line := by
  induction l with
  | nil => rfl
  | cons x t ih => simp [List.filter_cons, isDirective_includeLine, ih]

theorem directives_headerSeg (e : EmittableEntity) :
    (headerSeg e).filter isDirective =
      ["#ifndef " ++ guardOf e, "#define " ++ guardOf e] := by
  have h1 : isDirective "// Auto-generated C++ header file" = false := by decide
  have h2 : isDirective "" = false := by decide
  have h3 : isDirective "// Standard library includes" = false := by decide
  simp [headerSeg, List.filter_cons, h1, h2, h3, isDirective_ifndef, isDirective_define]

theorem directives_includeSeg (e : EmittableEntity) :
    (includeSeg e).filter isDirective = (includesOf e).map IncludeRef.line := by
  have h2 : isDirective "" = false := by decide
  have h4 : isDirective "// Project includes" = false := by decide
  have h5 : isDirective "// Custom includes based on features" = false := by decide
  obtain ⟨hs, hp, hc⟩ := includesOf_kind_filters e
  unfold includeSeg
  simp only [List.filter_append, filter_isDirective_includeLines]
  simp only [List.filter_cons, h2, h4, h5, if_false, List.filter_nil]
  rw [hs, hp, hc]
  simp [includesOf, List.map_append]

theorem directives_classOpenSeg (e : EmittableEntity) :
    (classOpenSeg e).filter isDirective = [] := by
  have h2 : isDirective "" = false := by decide
  have h6 : isDirective "/**" = false := by decide
  have h7 : isDirective " */" = false := by decide
  have h8 : isDirective "private:" = false := by decide
  simp [classOpenSeg, List.filter_cons, h2, h6, h7, h8, isDirective_nsOpen,
    isDirective_atClass, isDirective_atBrief, isDirective_classDecl]

theorem directives_membersSeg (e : EmittableEntity) :
    (membersSeg e).filter isDirective = [] := by
  have h9 : isDirective "public:" = false := by decide
  have h10 : isDirective "    // Constructors and Destructor" = false := by decide
  have h11 : isDirective "    // Public methods" = false := by decide
  have h12 : isDirective "    // Getters and Setters" = false := by decide
  simp [membersSeg, List.filter_append, filter_isDirective_indent4, List.filter_cons,
    h9, h10, h11, h12]

theorem directives_closeSeg (e : EmittableEntity) :
    (closeSeg e).filter isDirective = ["#endif // " ++ guardOf e] := by
  have h2 : isDirective "" = false := by decide
  have h13 : isDirective "\x7d;" = false := by decide
  have h14 : isDirective "// Inline implementations" = false := by decide
  simp [closeSeg, List.filter_cons, h2, h13, h14, isDirective_closeNs, isDirective_endif]

/-- C10: every rendered header unit is wrapped in an include guard — its
first preprocessor directives are `#ifndef G` and `#define G` where `G` is
the uppercased entity name suffixed `_H`, the only directives between them
and the end are the `#include` lines, and the unit's final directive is the
matching `#endif`; the two checked-in headers show exactly this directive
shape with guards `PERSON_H` and `EMPLOYEE_H`. -/
theorem include_guard_wraps_units (e : EmittableEntity) :
    directivesOf (renderLines e) =
      ["#ifndef " ++ guardOf e, "#define " ++ guardOf e]
        ++ (includesOf e).map IncludeRef.line
        ++ ["#endif // " ++ guardOf e] ∧
    guardOf e = upperName e.name ++ "_H" ∧
    (∀ i ∈ includesOf e, leadSeg "#include ".data (IncludeRef.line i).data = true) ∧
    directivesOf personHeaderLines =
      ["#ifndef PERSON_H", "#define PERSON_H", "#include <iostream>",
       "#include <memory>", "#include <string>", "#include <vector>",
       "#include <map>", "#endif // PERSON_H"] ∧
    upperName "Person" ++ "_H" = "PERSON_H" ∧
    directivesOf employeeHeaderLines =
      ["#ifndef EMPLOYEE_H", "#define EMPLOYEE_H", "#include <iostream>",
       "#include <memory>", "#include <string>", "#include <vector>",
       "#include <map>", "#include \"Person.h\"", "#endif // EMPLOYEE_H"] ∧
    upperName "Employee" ++ "_H" = "EMPLOYEE_H" := by
  refine ⟨?_, rfl, ?_, by decide, by decide, by decide, by decide⟩
  · unfold directivesOf renderLines
    simp only [List.filter_append]
    rw [directives_headerSeg, directives_includeSeg, directives_classOpenSeg,
      directives_membersSeg, directives_closeSeg]
    simp
  · intro i hi
    obtain ⟨k, t⟩ := i
    obtain ⟨td⟩ := t
    cases k <;> rfl

/-- Witness for C8 (amended) at the sample Person emittable entity. -/
theorem includes_deduplicated_and_grouped_witness :
    (includesOf sampleEmittable).Nodup ∧
    includesOf sampleEmittable =
      (includesOf sampleEmittable).filter (fun i => i.kind == .std)
        ++ (includesOf sampleEmittable).filter (fun i => i.kind == .project)
        ++ (includesOf sampleEmittable).filter (fun i => i.kind == .custom) ∧
    ((includesOf sampleEmittable).filter (fun i => i.kind == .std)).map
      IncludeRef.target = stdIncludes :=
  includes_deduplicated_and_grouped sampleEmittable

/-- Witness for C10 at the sample Person emittable entity. -/
theorem include_guard_wraps_units_witness :
    directivesOf (renderLines sampleEmittable) =
      ["#ifndef " ++ guardOf sampleEmittable, "#define " ++ guardOf sampleEmittable]
        ++ (includesOf sampleEmittable).map IncludeRef.line
        ++ ["#endif // " ++ guardOf sampleEmittable] ∧
    guardOf sampleEmittable = upperName sampleEmittable.name ++ "_H" ∧
    (∀ i ∈ includesOf sampleEmittable,
      leadSeg "#include ".data (IncludeRef.line i).data = true) ∧
    directivesOf personHeaderLines =
      ["#ifndef PERSON_H", "#define PERSON_H", "#include <iostream>",
       "#include <memory>", "#include <string>", "#include <vector>",
       "#include <map>", "#endif // PERSON_H"] ∧
    upperName "Person" ++ "_H" = "PERSON_H" ∧
    directivesOf employeeHeaderLines =
      ["#ifndef EMPLOYEE_H", "#define EMPLOYEE_H", "#include <iostream>",
       "#include <memory>", "#include <string>", "#include <vector>",
       "#include <map>", "#include \"Person.h\"", "#endif // EMPLOYEE_H"] ∧
    upperName "Employee" ++ "_H" = "EMPLOYEE_H" :=
  include_guard_wraps_units sampleEmittable

end MyDslGen
